import Mathlib

/-!
Verification of the "tail and merge" utility in `src/main.py`
(`readline`, `tail_file`, `run_threads`) against its specification.

The Python file-handle state is embedded as a record of the byte contents,
the current file position and the closed flag.  Bytes are `Nat`s; the
newline byte is 10.  Python exceptions are embedded as an explicit error
type threaded through `Except`-style results.
-/

namespace TailMerge

/-- A byte of file content, as in Python's binary-mode handles. -/
abbrev Byte := Nat

/-- The newline byte, the line terminator `handle.readline()` stops at. -/
def newlineByte : Byte := 10

/-- State of an open Python file handle: its byte contents, the current
position (`tell`/`seek`), and the `closed` flag.  `seek` may legally place
`pos` beyond `data.length` (Python allows seeking past end-of-file). -/
structure Handle where
  data : List Byte
  pos : Nat
  closed : Bool
deriving DecidableEq, Repr

/-- The Python exceptions that arise in `src/main.py`:
`NoNewData` (class at line 1), the `NameError` raised at line 25 because
the name `intervale` is undefined, the `TypeError` raised at line 37
because `with Lock:` enters the `threading.Lock` factory itself (not a
context manager) instead of the `lock` instance, and arbitrary I/O errors
the underlying stream may raise, tagged by a number. -/
inductive PyErr where
  | noNewData
  | nameError
  | typeError
  | ioError (n : Nat)
deriving DecidableEq, Repr

/-- Embedding of `handle.readline()` on a binary handle: the bytes from the current
position up to and including the first newline byte, or to end-of-stream
when no newline is present (empty when the position is at or past
end-of-stream). -/
def readUntilNL : List Byte → List Byte
  | [] => []
  | b :: rest => if b = newlineByte then [b] else b :: readUntilNL rest

/-- Embedding of `readline(handle)` from `src/main.py` lines 5-14:
`offset = handle.tell()`; `handle.seek(0, 2)`; `length = handle.tell()`;
if `length == offset` raise `NoNewData`; else `handle.seek(offset, 0)`
and return `handle.readline()`.  The returned `Handle` is the state of
the (mutated) Python handle after the call, on both the error and the
success path. -/
def readline (h : Handle) : Except PyErr (List Byte) × Handle :=
  let offset := h.pos
  let h1 : Handle := { h with pos := h.data.length }
  let length := h1.pos
  if length = offset then
    (Except.error PyErr.noNewData, h1)
  else
    let h2 : Handle := { h1 with pos := offset }
    let line := readUntilNL (h2.data.drop offset)
    (Except.ok line, { h2 with pos := offset + line.length })

/-- Outcome of running the watcher loop `tail_file` for a bounded number of
iterations.  `delivered` lists, in order, the payloads passed to
`write_func` (line 27).  `done` means the loop exited because the handle
reported closed; `errored e` means an uncaught exception `e` escaped the
loop and terminates the watcher thread; `outOfFuel` means the iteration
bound ran out while the loop was still live. -/
inductive TailResult where
  | done (h : Handle) (delivered : List (List Byte))
  | errored (e : PyErr) (h : Handle) (delivered : List (List Byte))
  | outOfFuel (h : Handle) (delivered : List (List Byte))
deriving DecidableEq, Repr

/-- Record one more `write_func(line)` call at the front of a result's
delivery list. -/
def addDeliver (line : List Byte) : TailResult → TailResult
  | .done h t => .done h (line :: t)
  | .errored e h t => .errored e h (line :: t)
  | .outOfFuel h t => .outOfFuel h (line :: t)

/-- Embedding of `tail_file(handle, interval, write_func)` from `src/main.py` lines
20-27, generic in the `read` operation standing for the `readline(handle)`
call (whose underlying I/O may raise errors beyond `NoNewData`), and run
with an explicit iteration bound since the Python loop can run forever.

Body, faithfully: `while not handle.closed:` — then `try: line =
readline(handle)`; `except NoNewData:` evaluate `time.sleep(intervale)`,
where the name `intervale` is undefined, so this branch raises `NameError`
(the intended sleep never happens); `else: write_func(line)`.  Any error
other than `NoNewData` from the read is not caught and escapes. -/
def tailFileGen (read : Handle → Except PyErr (List Byte) × Handle) :
    Nat → Handle → TailResult
  | 0, h => if h.closed then .done h [] else .outOfFuel h []
  | fuel + 1, h =>
    if h.closed then .done h []
    else
      match read h with
      | (Except.error e, h1) =>
        if e = PyErr.noNewData then .errored PyErr.nameError h1 []
        else .errored e h1 []
      | (Except.ok line, h1) => addDeliver line (tailFileGen read fuel h1)

/-- The concrete watcher loop: `tail_file` applied to the `readline` of
`src/main.py` lines 5-14. -/
def tail_file : Nat → Handle → TailResult :=
  tailFileGen readline

/-- How a watcher thread ends, as observed by `Thread.join`: either the
target function returned, or it was terminated by an uncaught exception
(`Thread.join` itself reports neither — it just waits). -/
inductive WatcherOutcome where
  | ok
  | error (e : PyErr)
deriving DecidableEq, Repr

/-- Observable steps of `run_threads(handles, interval, output_path)`
(`src/main.py` lines 33-48): opening the output file with mode `"wb"`
(creating/truncating it), starting the watcher thread for source `i` with
the shared `interval` (its args are `(handle, interval, write)`), joining
the thread for source `i` (which returns whatever way the thread ended),
and closing the output handle when the `with` block is left. -/
inductive CoordEvent where
  | openOutput
  | startWatcher (i : Nat) (interval : Nat)
  | joinWatcher (i : Nat) (outcome : WatcherOutcome)
  | closeOutput
deriving DecidableEq, Repr

/-- The join loop of lines 47-48: `for thread in threads: thread.join()`,
joining the threads in the order they were started.  `Thread.join` returns
normally whether the thread finished or died of an uncaught exception, so
the loop never short-circuits. -/
def joinEvents : Nat → List WatcherOutcome → List CoordEvent
  | _, [] => []
  | i, o :: rest => CoordEvent.joinWatcher i o :: joinEvents (i + 1) rest

/-- Trace of `run_threads` (`src/main.py` lines 33-48), indexed by how
each started watcher thread eventually ends (`outcomes`, one entry per
source handle, in `handles` order) and the shared poll `interval`:
the `with open(output_path, "wb")` enters first; lines 41-45 start one
thread per handle, in order, each with args `(handle, interval, write)`;
lines 47-48 join them all in start order; leaving the `with` block closes
the output handle on every exit path. -/
def run_threads (outcomes : List WatcherOutcome) (interval : Nat) :
    List CoordEvent :=
  CoordEvent.openOutput ::
    ((List.range outcomes.length).map (fun i => CoordEvent.startWatcher i interval) ++
      (joinEvents 0 outcomes ++ [CoordEvent.closeOutput]))

/-- The Sink state: the bytes so far written to the output handle opened
at `src/main.py` line 34. -/
structure OutFile where
  contents : List Byte
deriving DecidableEq, Repr

/-- What the expression after `with` at line 37 refers to: `Lock` is the
`threading.Lock` factory itself; `lock` is the instance created at
line 35 (which the closure never uses). -/
inductive LockRef where
  | lockClass
  | lockInstance
deriving DecidableEq, Repr

/-- Entering `with <guard>:`.  The `threading.Lock` factory is a builtin
function, not a context manager, so entering it raises `TypeError`;
entering the created lock instance acquires it and succeeds. -/
def enterGuard : LockRef → Except PyErr Unit
  | .lockClass => Except.error PyErr.typeError
  | .lockInstance => Except.ok ()

/-- The `write(date)` closure of `src/main.py` lines 36-38: `with Lock:`
— entering the guard named there (the `Lock` factory itself, not the
`lock` instance) — then `output.write(date)` inside the block.  When
entering the guard fails, the write statement is never reached. -/
def write (out : OutFile) (date : List Byte) : Except PyErr OutFile :=
  match enterGuard LockRef.lockClass with
  | Except.error e => Except.error e
  | Except.ok _ => Except.ok { contents := out.contents ++ date }

/-- The bytes `handle.readline()` returns form the beginning of the
remaining stream: appending the bytes left after the read re-forms the
remaining stream. -/
theorem readUntilNL_append_drop (l : List Byte) :
    readUntilNL l ++ l.drop (readUntilNL l).length = l := by
  induction l with
  | nil => rfl
  | cons b rest ih =>
    by_cases hb : b = newlineByte
    · simp [readUntilNL, hb]
    · simpa [readUntilNL, hb] using ih

/-- Reads return at most one line: no newline byte occurs
before its final byte. -/
theorem newline_not_mem_dropLast (l : List Byte) :
    newlineByte ∉ (readUntilNL l).dropLast := by
  induction l with
  | nil => simp [readUntilNL]
  | cons b rest ih =>
    by_cases hb : b = newlineByte
    · simp [readUntilNL, hb]
    · cases hr : readUntilNL rest with
      | nil => simp [readUntilNL, hb, hr]
      | cons c cs =>
        rw [hr] at ih
        simp only [readUntilNL, hb, if_false, hr, List.dropLast_cons₂,
          List.mem_cons, not_or]
        exact ⟨fun e => hb e.symm, ih⟩

/-- Reads either stop at (and include) a newline byte, or
consumes the whole remaining stream. -/
theorem readUntilNL_last_or_eq (l : List Byte) :
    (readUntilNL l).getLast? = some newlineByte ∨ readUntilNL l = l := by
  induction l with
  | nil => exact Or.inr rfl
  | cons b rest ih =>
    by_cases hb : b = newlineByte
    · left
      simp [readUntilNL, hb]
    · cases ih with
      | inl hl =>
        left
        cases hr : readUntilNL rest with
        | nil => rw [hr] at hl; simp at hl
        | cons c cs =>
          rw [hr] at hl
          simpa [readUntilNL, hb, hr] using hl
      | inr he =>
        right
        simp [readUntilNL, hb, he]

/-- C3: `readline` fails with `NoNewData` exactly when the cursor equals
the source's current length; otherwise it returns the bytes at the cursor
up to and including the next newline (or to end-of-stream when none is
present, a partial line as-is), and the cursor afterwards sits just past
the returned bytes. -/
theorem readline_spec (h : Handle) :
    ((readline h).1 = Except.error PyErr.noNewData ↔ h.pos = h.data.length) ∧
    (h.pos ≠ h.data.length →
      ∃ line, (readline h).1 = Except.ok line ∧
        line ++ h.data.drop (h.pos + line.length) = h.data.drop h.pos ∧
        newlineByte ∉ line.dropLast ∧
        (line.getLast? = some newlineByte ∨
          h.data.length ≤ h.pos + line.length) ∧
        (readline h).2.pos = h.pos + line.length) := by
  constructor
  · by_cases hc : h.data.length = h.pos
    · simp [readline, hc, eq_comm]
    · simp [readline, hc]
      exact fun e => hc e.symm
  · intro hne
    have hc : ¬(h.data.length = h.pos) := fun e => hne e.symm
    refine ⟨readUntilNL (h.data.drop h.pos), ?_, ?_, ?_, ?_, ?_⟩
    · simp [readline, hc]
    · rw [← List.drop_drop]
      exact readUntilNL_append_drop (h.data.drop h.pos)
    · exact newline_not_mem_dropLast _
    · cases readUntilNL_last_or_eq (h.data.drop h.pos) with
      | inl hl => exact Or.inl hl
      | inr he =>
        right
        rw [he, List.length_drop]
        omega
    · simp [readline, hc]

/-- C3 witness: on a source holding bytes `a\nb` with the cursor at 0,
`readline` returns the first line. -/
theorem readline_spec_witness :
    ∃ line,
      (readline ⟨[97, 10, 98], 0, false⟩).1 = Except.ok line ∧
      line ++ ([97, 10, 98] : List Byte).drop (0 + line.length) =
        ([97, 10, 98] : List Byte).drop 0 ∧
      newlineByte ∉ line.dropLast ∧
      (line.getLast? = some newlineByte ∨
        ([97, 10, 98] : List Byte).length ≤ 0 + line.length) ∧
      (readline ⟨[97, 10, 98], 0, false⟩).2.pos = 0 + line.length :=
  (readline_spec ⟨[97, 10, 98], 0, false⟩).2 (by decide)

/-- C4: when the cursor already equals the length (no new data), `readline`
reports `NoNewData`, leaves the handle unchanged, and a second call does the
same; moreover no call to `readline` ever changes the data or the closed
flag of the handle — its only side effect is on the cursor. -/
theorem readline_no_new_data_idempotent (h : Handle)
    (hnd : h.pos = h.data.length) :
    (readline h).1 = Except.error PyErr.noNewData ∧
    (readline h).2 = h ∧
    (readline (readline h).2).1 = Except.error PyErr.noNewData ∧
    (readline (readline h).2).2 = h ∧
    ∀ h0 : Handle, (readline h0).2.data = h0.data ∧
      (readline h0).2.closed = h0.closed := by
  have hcond : h.data.length = h.pos := hnd.symm
  have hfix : ({ h with pos := h.data.length } : Handle) = h := by
    obtain ⟨d, p, c⟩ := h
    simp only [Handle.mk.injEq, and_true, true_and]
    exact hnd.symm
  have h2 : (readline h).2 = h := by
    simp [readline, hcond, hfix]
  refine ⟨by simp [readline, hcond], h2, ?_, ?_, ?_⟩
  · rw [h2]
    simp [readline, hcond]
  · rw [h2, h2]
  · intro h0
    by_cases hc : h0.data.length = h0.pos <;> simp [readline, hc]

/-- C4 witness: a fully consumed one-line source reports `NoNewData` twice
with the handle unchanged. -/
theorem readline_no_new_data_idempotent_witness :
    (readline ⟨[10], 1, false⟩).1 = Except.error PyErr.noNewData ∧
    (readline ⟨[10], 1, false⟩).2 = ⟨[10], 1, false⟩ ∧
    (readline (readline ⟨[10], 1, false⟩).2).1 =
      Except.error PyErr.noNewData :=
  have h := readline_no_new_data_idempotent ⟨[10], 1, false⟩ (by decide)
  ⟨h.1, h.2.1, h.2.2.1⟩

/-- C9: on a handle that is already closed (with no bytes ever written) the
`while not handle.closed` loop body is never entered: no delivery happens
and the watcher finishes at once, whatever the iteration bound. -/
theorem tail_file_closed_source (fuel : Nat) (h : Handle)
    (hc : h.closed = true) (_hd : h.data = []) :
    tail_file fuel h = TailResult.done h [] := by
  cases fuel <;> simp [tail_file, tailFileGen, hc]

/-- C9 witness: the closed empty source, polled with bound 5. -/
theorem tail_file_closed_source_witness :
    tail_file 5 ⟨[], 0, true⟩ = TailResult.done ⟨[], 0, true⟩ [] :=
  tail_file_closed_source 5 ⟨[], 0, true⟩ (by decide) (by decide)

/-- C10: on a truncated source (current length strictly below the cursor)
`readline` does not report `NoNewData` — the check is exact equality — but
returns the empty byte sequence with the cursor unchanged, so the watcher
delivers an empty payload on every poll instead of sleeping, until its
iteration bound runs out. -/
theorem readline_truncated (h : Handle) (hlt : h.data.length < h.pos)
    (hopen : h.closed = false) :
    (readline h).1 = Except.ok [] ∧
    (readline h).1 ≠ Except.error PyErr.noNewData ∧
    (readline h).2 = h ∧
    ∀ fuel, tail_file fuel h =
      TailResult.outOfFuel h (List.replicate fuel []) := by
  have hne : ¬(h.data.length = h.pos) := Nat.ne_of_lt hlt
  have hdrop : h.data.drop h.pos = [] :=
    List.drop_eq_nil_of_le (Nat.le_of_lt hlt)
  have hfst : (readline h).1 = Except.ok [] := by
    simp [readline, hne, hdrop, readUntilNL]
  have hsnd : (readline h).2 = h := by
    simp [readline, hne, hdrop, readUntilNL]
  have hread : readline h = (Except.ok [], h) := by
    rw [Prod.ext_iff]
    exact ⟨hfst, hsnd⟩
  refine ⟨hfst, by simp [hfst], hsnd, ?_⟩
  intro fuel
  induction fuel with
  | zero => simp [tail_file, tailFileGen, hopen]
  | succ n ih =>
    simp only [tail_file, tailFileGen, hopen, Bool.false_eq_true,
      if_false, hread, List.replicate]
    rw [show tailFileGen readline n h = tail_file n h from rfl, ih]
    rfl

/-- C10 witness: a source truncated to one byte after three were consumed
yields empty reads and three empty deliveries in three polls. -/
theorem readline_truncated_witness :
    (readline ⟨[97], 3, false⟩).1 = Except.ok [] ∧
    tail_file 3 ⟨[97], 3, false⟩ =
      TailResult.outOfFuel ⟨[97], 3, false⟩ (List.replicate 3 []) :=
  have h := readline_truncated ⟨[97], 3, false⟩ (by decide) (by decide)
  ⟨h.1, h.2.2.2 3⟩

/-- C1 (bug demonstration): on an open source with no new data the watcher
does not sleep for `interval` seconds and retry — the `except NoNewData`
handler evaluates the undefined name `intervale` (`src/main.py` line 25),
so the very first idle poll raises `NameError` and kills the watcher. -/
theorem tail_file_idle_raises_name_error :
    tail_file 1 ⟨[], 0, false⟩ =
      TailResult.errored PyErr.nameError ⟨[], 0, false⟩ [] := by decide

/-- C5 (bug demonstration): a source holding the single line `a1\n` has
that line delivered, but the next poll finds no new data and the watcher
dies of the `NameError` from line 25 instead of sleeping — so delivery
does not continue across idle/poll cycles as claimed. -/
theorem tail_file_order_broken_on_idle :
    tail_file 2 ⟨[97, 49, 10], 0, false⟩ =
      TailResult.errored PyErr.nameError ⟨[97, 49, 10], 3, false⟩
        [[97, 49, 10]] := by decide

/-- C2 (bug demonstration): a single deliver call on an open destination
does not append the payload — `with Lock:` (`src/main.py` line 37) enters
the `threading.Lock` factory instead of the `lock` instance, raising
`TypeError` before `output.write` runs. -/
theorem write_single_call_fails :
    write ⟨[]⟩ [104, 105] = Except.error PyErr.typeError := rfl

/-- C8 (bug demonstration): no deliver call ever reaches the destination
handle, whatever the sink state and payload: every `write` raises
`TypeError` from entering the `Lock` factory, so the mutual-exclusion
guard is never acquired and no bytes are written at all. -/
theorem write_never_appends (out : OutFile) (date : List Byte) :
    write out date = Except.error PyErr.typeError := rfl

/-- The join loop contains the join of every started watcher, at the index
offset it was started at. -/
theorem joinEvents_mem (outcomes : List WatcherOutcome) :
    ∀ (k i : Nat) (hi : i < outcomes.length),
      CoordEvent.joinWatcher (k + i) (outcomes.get ⟨i, hi⟩) ∈
        joinEvents k outcomes := by
  induction outcomes with
  | nil =>
    intro k i hi
    simp at hi
  | cons o rest ih =>
    intro k i hi
    cases i with
    | zero => simp [joinEvents]
    | succ j =>
      have hj : j < rest.length := by simpa using hi
      have hmem := ih (k + 1) j hj
      have harith : k + (j + 1) = (k + 1) + j := by omega
      simp only [joinEvents, List.mem_cons]
      right
      rw [harith]
      simpa using hmem

/-- C6: for every set of sources and however each watcher thread ends, the
coordinator trace opens the output first, starts one watcher per source
with the shared interval, joins every watcher in start order even when an
earlier one ended in error, and its very last step closes the output
handle. -/
theorem run_threads_spec (outcomes : List WatcherOutcome) (interval : Nat) :
    (run_threads outcomes interval).head? = some CoordEvent.openOutput ∧
    (run_threads outcomes interval).getLast? = some CoordEvent.closeOutput ∧
    (∀ i, i < outcomes.length →
      CoordEvent.startWatcher i interval ∈ run_threads outcomes interval) ∧
    (∀ i (hi : i < outcomes.length),
      CoordEvent.joinWatcher i (outcomes.get ⟨i, hi⟩) ∈
        run_threads outcomes interval) ∧
    List.Sublist (joinEvents 0 outcomes) (run_threads outcomes interval) := by
  refine ⟨rfl, ?_, ?_, ?_, ?_⟩
  · have hsplit : run_threads outcomes interval =
        (CoordEvent.openOutput ::
          ((List.range outcomes.length).map
              (fun i => CoordEvent.startWatcher i interval) ++
            joinEvents 0 outcomes)) ++ [CoordEvent.closeOutput] := by
      simp [run_threads]
    rw [hsplit, List.getLast?_concat]
  · intro i hi
    unfold run_threads
    apply List.mem_cons_of_mem
    apply List.mem_append_left
    exact List.mem_map.mpr ⟨i, List.mem_range.mpr hi, rfl⟩
  · intro i hi
    unfold run_threads
    apply List.mem_cons_of_mem
    apply List.mem_append_right
    apply List.mem_append_left
    simpa using joinEvents_mem outcomes 0 i hi
  · have h1 : List.Sublist (joinEvents 0 outcomes)
        (joinEvents 0 outcomes ++ [CoordEvent.closeOutput]) :=
      List.sublist_append_left _ _
    have h2 : List.Sublist
        (joinEvents 0 outcomes ++ [CoordEvent.closeOutput])
        ((List.range outcomes.length).map
            (fun i => CoordEvent.startWatcher i interval) ++
          (joinEvents 0 outcomes ++ [CoordEvent.closeOutput])) :=
      List.sublist_append_right _ _
    exact (h1.trans h2).cons _

/-- C6 witness: with two sources, the second of which ends in error, the
coordinator still joins it and still closes the output last. -/
theorem run_threads_spec_witness :
    CoordEvent.startWatcher 1 5 ∈
      run_threads [WatcherOutcome.ok, WatcherOutcome.error (PyErr.ioError 0)] 5 ∧
    CoordEvent.joinWatcher 1 (WatcherOutcome.error (PyErr.ioError 0)) ∈
      run_threads [WatcherOutcome.ok, WatcherOutcome.error (PyErr.ioError 0)] 5 ∧
    (run_threads [WatcherOutcome.ok, WatcherOutcome.error (PyErr.ioError 0)] 5).getLast? =
      some CoordEvent.closeOutput := by
  have h := run_threads_spec
    [WatcherOutcome.ok, WatcherOutcome.error (PyErr.ioError 0)] 5
  refine ⟨h.2.2.1 1 (by decide), ?_, h.2.1⟩
  have hj := h.2.2.2.1 1 (by decide)
  simpa using hj

/-- A recorded delivery does not change how the rest of the loop run
ended: if the result after `addDeliver` is an error, the underlying run
already ended with that same error. -/
theorem addDeliver_errored (line : List Byte) (r : TailResult) (e : PyErr)
    (h1 : Handle) (t : List (List Byte)) :
    addDeliver line r = TailResult.errored e h1 t →
    ∃ t2, r = TailResult.errored e h1 t2 := by
  cases r with
  | done h t0 =>
    intro hcontra
    simp [addDeliver] at hcontra
  | outOfFuel h t0 =>
    intro hcontra
    simp [addDeliver] at hcontra
  | errored e0 h0 t0 =>
    intro heq
    simp only [addDeliver, TailResult.errored.injEq] at heq
    exact ⟨t0, by rw [heq.1, heq.2.1]⟩

/-- C7: a read failure other than `NoNewData` escapes the watcher loop
unchanged on the iteration it occurs (the `except` clause catches only
`NoNewData`), and no run of the watcher loop ever terminates by surfacing
`NoNewData` itself — whenever the loop ends in an error, that error is
not `NoNewData`. -/
theorem tail_file_error_propagation :
    (∀ (read : Handle → Except PyErr (List Byte) × Handle)
        (h h1 : Handle) (e : PyErr) (fuel : Nat),
      h.closed = false → read h = (Except.error e, h1) →
      e ≠ PyErr.noNewData →
      tailFileGen read (fuel + 1) h = TailResult.errored e h1 []) ∧
    (∀ (read : Handle → Except PyErr (List Byte) × Handle)
        (fuel : Nat) (h h1 : Handle) (e : PyErr) (t : List (List Byte)),
      tailFileGen read fuel h = TailResult.errored e h1 t →
      e ≠ PyErr.noNewData) := by
  constructor
  · intro read h h1 e fuel hclosed hread hne
    simp [tailFileGen, hclosed, hread, hne]
  · intro read fuel
    induction fuel with
    | zero =>
      intro h h1 e t heq
      by_cases hc : h.closed <;> simp [tailFileGen, hc] at heq
    | succ n ih =>
      intro h h1 e t heq
      by_cases hc : h.closed
      · simp [tailFileGen, hc] at heq
      · rcases hr : read h with ⟨res, hh⟩
        cases res with
        | error e0 =>
          by_cases he0 : e0 = PyErr.noNewData
          · simp [tailFileGen, hc, hr, he0] at heq
            rw [← heq.1]
            simp
          · simp [tailFileGen, hc, hr, he0] at heq
            rw [← heq.1]
            exact he0
        | ok line =>
          simp only [tailFileGen, hc, Bool.false_eq_true, if_false, hr] at heq
          obtain ⟨t2, ht2⟩ := addDeliver_errored line _ e h1 t heq
          exact ih hh h1 e t2 ht2

/-- C7 witness: a generic I/O failure on the first read of an open handle
escapes the loop as itself. -/
theorem tail_file_error_propagation_witness :
    tailFileGen (fun h0 => (Except.error (PyErr.ioError 7), h0)) 1
        ⟨[], 0, false⟩ =
      TailResult.errored (PyErr.ioError 7) ⟨[], 0, false⟩ [] :=
  tail_file_error_propagation.1
    (fun h0 => (Except.error (PyErr.ioError 7), h0))
    ⟨[], 0, false⟩ ⟨[], 0, false⟩ (PyErr.ioError 7) 0
    rfl rfl (by decide)

end TailMerge
